import Mathlib

/-!
Shallow embedding of the police-system Express server (src/server/routes.js,
the dev-admin seed, and the reports UI component), together with the parts of
the storage layer that routes.js calls but whose source is not in the
repository snapshot; those are modelled from the spec and marked as such.

JavaScript truthiness conventions that the routes rely on (`x || d` with ""
and 0 falsy) are modelled explicitly by jsOrStr / jsOrNat.
-/

namespace PoliceSystem

/-- JS `s || d` for string-valued fields: `undefined` (none) and `""` are falsy. -/
def jsOrStr (v : Option String) (d : String) : String :=
  match v with
  | none => d
  | some s => if s = "" then d else s

/-- JS `n || d` for number-valued fields: `undefined` (none) and `0` are falsy. -/
def jsOrNat (v : Option Nat) (d : Nat) : Nat :=
  match v with
  | none => d
  | some n => if n = 0 then d else n

/-! ### Users -/

/-- A user document, with the fields created by seedDevAdmin. -/
structure User where
  id : Nat
  username : String
  email : String
  password : String
  firstName : String
  lastName : String
  role : String
  badgeNumber : String
  department : String
  position : String
  phone : String
  isActive : Bool
  createdAt : Nat
  updatedAt : Nat
deriving Repr, DecidableEq

/-- The JSON object serialization of a user document, as a key/value list. -/
def userObject (u : User) : List (String × String) :=
  [("id", toString u.id),
   ("username", u.username),
   ("email", u.email),
   ("password", u.password),
   ("firstName", u.firstName),
   ("lastName", u.lastName),
   ("role", u.role),
   ("badgeNumber", u.badgeNumber),
   ("department", u.department),
   ("position", u.position),
   ("phone", u.phone),
   ("isActive", toString u.isActive),
   ("createdAt", toString u.createdAt),
   ("updatedAt", toString u.updatedAt)]

/-- JS rest-destructuring `const { k: _, ...rest } = obj`: the object without key k. -/
def objWithout (k : String) (o : List (String × String)) : List (String × String) :=
  o.filter (fun p => p.1 ≠ k)

/-- storage.getUserByUsername: first user whose username matches. -/
def getUserByUsername (users : List User) (uname : String) : Option User :=
  users.find? (fun u => u.username == uname)

/-- storage.getUserByEmail: first user whose email matches. -/
def getUserByEmail (users : List User) (email : String) : Option User :=
  users.find? (fun u => u.email == email)

/-- storage.getUser: first user whose id matches. -/
def getUser (users : List User) (uid : Nat) : Option User :=
  users.find? (fun u => u.id == uid)

/-! ### POST /api/auth/login (routes.js lines 53-90) -/

inductive LoginResponse
  /-- HTTP 401 "Invalid credentials" -/
  | invalidCredentials
  /-- HTTP 403 "Account is deactivated" -/
  | deactivated
  /-- HTTP 200 `{ user }` with the password-stripped user object -/
  | success (user : List (String × String))
deriving Repr, DecidableEq

/-- The login handler's response plus the session it establishes (if any). -/
structure LoginResult where
  response : LoginResponse
  sessionUserId : Option Nat
deriving Repr, DecidableEq

/-- POST /api/auth/login: looks the user up by username, then checks
`user.password === password || (user.username === 'admin' && password === 'admin123')`,
then the isActive flag; on success stores the user id in the session and
returns the user object without its password field. -/
def loginHandler (users : List User) (username password : String) : LoginResult :=
  match getUserByUsername users username with
  | none => ⟨.invalidCredentials, none⟩
  | some user =>
    let isValidPassword :=
      user.password == password ||
        (user.username == "admin" && password == "admin123")
    if !isValidPassword then ⟨.invalidCredentials, none⟩
    else if !user.isActive then ⟨.deactivated, none⟩
    else ⟨.success (objWithout "password" (userObject user)), some user.id⟩

/-- An admin user as seeded by seedDevAdmin, except that the stored password
has been changed to "hunter2" (e.g. by a completed password reset). -/
def adminStored : User :=
  { id := 1
    username := "admin"
    email := "admin@police.gov"
    password := "hunter2"
    firstName := "System"
    lastName := "Administrator"
    role := "admin"
    badgeNumber := "ADMIN001"
    department := "IT"
    position := "System Administrator"
    phone := "+1-555-0000"
    isActive := true
    createdAt := 0
    updatedAt := 0 }

/-- C1: the claim says a login whose password differs from the stored password
is rejected with 401 and establishes no session, for every username including
"admin", with no per-username bypass. The code has a bypass branch
`user.username === 'admin' && password === 'admin123'`: with the admin's stored
password changed to "hunter2", logging in as "admin" with "admin123" succeeds
and establishes a session even though "admin123" is not the stored password. -/
theorem c1_login_admin_bypass :
    "admin123" ≠ adminStored.password ∧
    (loginHandler [adminStored] "admin" "admin123").sessionUserId = some 1 ∧
    (loginHandler [adminStored] "admin" "admin123").response ≠
      LoginResponse.invalidCredentials := by
  refine ⟨by decide, ?_, ?_⟩ <;> decide

/-! ### POST /api/auth/forgot-password (routes.js lines 118-140) -/

/-- The JSON body of a forgot-password success response. -/
structure ForgotPasswordResponse where
  message : String
  token : Option String
deriving Repr, DecidableEq

/-- POST /api/auth/forgot-password: for an unknown username responds with the
non-revealing message and no token; for a known username responds with
"Password reset token generated" and the freshly generated token
(`randomBytes(32).toString('hex')`, modelled as the parameter freshToken). -/
def forgotPasswordHandler (users : List User) (freshToken : String)
    (username : String) : ForgotPasswordResponse :=
  match getUserByUsername users username with
  | none => ⟨"If the username exists, a reset token has been generated", none⟩
  | some _ => ⟨"Password reset token generated", some freshToken⟩

/-- C2: the claim says the forgot-password responses for an existing and a
non-existing username are indistinguishable. They are not: with the seeded
admin in the store, the response for "admin" carries a different message and
includes the reset token, while the response for "ghost" does not. -/
theorem c2_forgot_password_distinguishable :
    forgotPasswordHandler [adminStored] "tok" "admin" ≠
      forgotPasswordHandler [adminStored] "tok" "ghost" ∧
    (forgotPasswordHandler [adminStored] "tok" "admin").token = some "tok" ∧
    (forgotPasswordHandler [adminStored] "tok" "ghost").token = none := by
  refine ⟨?_, ?_, ?_⟩ <;> decide

/-! ### POST /api/auth/register (routes.js lines 92-116) -/

/-- The parsed output of registerSchema (the schema file is not in the
snapshot; the handler only forwards its fields after dropping
confirmPassword). -/
structure RegisterInput where
  username : String
  email : String
  password : String
  confirmPassword : String
  firstName : String
  lastName : String
deriving Repr, DecidableEq

/-- Modelled from the spec: storage.createUser is not in the snapshot; §4.2
create assigns an identifier and creation timestamp, persists the given
fields, and returns the stored form. -/
def createUser (nextId now : Nat) (d : RegisterInput) : User :=
  { id := nextId
    username := d.username
    email := d.email
    password := d.password
    firstName := d.firstName
    lastName := d.lastName
    role := "user"
    badgeNumber := ""
    department := ""
    position := ""
    phone := ""
    isActive := true
    createdAt := now
    updatedAt := now }

inductive RegisterResponse
  /-- HTTP 409 "Username already exists" -/
  | usernameExists
  /-- HTTP 409 "Email already exists" -/
  | emailExists
  /-- HTTP 201 `{ user }` with the password-stripped user object -/
  | created (user : List (String × String))
deriving Repr, DecidableEq

/-- POST /api/auth/register: rejects duplicate username or email, otherwise
creates the user (confirmPassword removed) and returns the new user object
without its password field. -/
def registerHandler (users : List User) (nextId now : Nat) (d : RegisterInput) :
    RegisterResponse × List User :=
  match getUserByUsername users d.username with
  | some _ => (.usernameExists, users)
  | none =>
    match getUserByEmail users d.email with
    | some _ => (.emailExists, users)
    | none =>
      let newUser := createUser nextId now d
      (.created (objWithout "password" (userObject newUser)), users ++ [newUser])

/-! ### GET /api/auth/me (routes.js lines 169-179) -/

inductive MeResponse
  /-- HTTP 404 "User not found" -/
  | notFound
  /-- HTTP 200 `{ user }` with the password-stripped user object -/
  | ok (user : List (String × String))
deriving Repr, DecidableEq

/-- GET /api/auth/me: `const userId = req.session?.userId || 1` falls back to
the fixed identifier 1 when there is no session, then returns that user
without its password field. -/
def meHandler (users : List User) (sessionUserId : Option Nat) : MeResponse :=
  let userId := jsOrNat sessionUserId 1
  match getUser users userId with
  | none => .notFound
  | some u => .ok (objWithout "password" (userObject u))

/-! ### PUT /api/profile (routes.js lines 182-193) -/

/-- The parsed output of updateProfileSchema (the schema file is not in the
snapshot): the profile fields a client may update, each optional. -/
structure ProfileUpdates where
  firstName : Option String
  lastName : Option String
  email : Option String
  phone : Option String
  badgeNumber : Option String
  department : Option String
  position : Option String
deriving Repr, DecidableEq

/-- Modelled from the spec: storage.updateUser is not in the snapshot; §4.2
update merges the submitted mutable fields and refreshes updatedAt, leaving
the identifier and createdAt unchanged. -/
def applyProfileUpdates (u : User) (p : ProfileUpdates) (now : Nat) : User :=
  { u with
    firstName := p.firstName.getD u.firstName
    lastName := p.lastName.getD u.lastName
    email := p.email.getD u.email
    phone := p.phone.getD u.phone
    badgeNumber := p.badgeNumber.getD u.badgeNumber
    department := p.department.getD u.department
    position := p.position.getD u.position
    updatedAt := now }

/-- Modelled from the spec: storage.updateUser fails with not-found when the
identifier is absent, otherwise applies the updates in the store and returns
the stored form. -/
def updateUser (users : List User) (uid : Nat) (p : ProfileUpdates) (now : Nat) :
    Option (User × List User) :=
  match getUser users uid with
  | none => none
  | some u =>
    let u2 := applyProfileUpdates u p now
    some (u2, users.map (fun v => if v.id == uid then u2 else v))

inductive ProfileResponse
  /-- HTTP 400 "Invalid input" (any thrown error is caught here; there is no
  401 branch in this handler) -/
  | invalidInput
  /-- HTTP 200 `{ user }` with the password-stripped user object -/
  | ok (user : List (String × String))
deriving Repr, DecidableEq

/-- PUT /api/profile: `const userId = req.session?.userId || 1` falls back to
the fixed identifier 1 when there is no session, applies the update to that
user, and returns the updated user without its password field. -/
def updateProfileHandler (users : List User) (sessionUserId : Option Nat)
    (p : ProfileUpdates) (now : Nat) : ProfileResponse × List User :=
  let userId := jsOrNat sessionUserId 1
  match updateUser users userId p now with
  | none => (.invalidInput, users)
  | some (u2, users2) => (.ok (objWithout "password" (userObject u2)), users2)

/-! ### GET /api/users (routes.js lines 196-200) -/

/-- GET /api/users: returns every user with the password field stripped. -/
def getUsersHandler (users : List User) : List (List (String × String)) :=
  users.map (fun u => objWithout "password" (userObject u))

/-- Stripping a key from an object leaves no occurrence of that key. -/
theorem objWithout_not_mem (k : String) (o : List (String × String)) :
    k ∉ (objWithout k o).map Prod.fst := by
  intro hmem
  rcases List.mem_map.mp hmem with ⟨p, hp, hk⟩
  have hne : p.1 ≠ k := by
    have h2 := (List.mem_filter.mp hp).2
    simpa using h2
  exact hne hk

/-- Any user object in a login success response is a password-stripped user. -/
theorem login_success_body (users : List User) (uname pwd : String)
    (body : List (String × String))
    (h : (loginHandler users uname pwd).response = .success body) :
    ∃ u : User, body = objWithout "password" (userObject u) := by
  unfold loginHandler at h
  split at h
  · exact absurd h (by simp)
  · next user _ =>
    simp only at h
    split at h
    · exact absurd h (by simp)
    · split at h
      · exact absurd h (by simp)
      · exact ⟨user, by simpa using h.symm⟩

/-- Any user object in a register success response is a password-stripped user. -/
theorem register_success_body (users : List User) (nextId now : Nat)
    (d : RegisterInput) (body : List (String × String))
    (h : (registerHandler users nextId now d).fst = .created body) :
    ∃ u : User, body = objWithout "password" (userObject u) := by
  unfold registerHandler at h
  split at h
  · exact absurd h (by simp)
  · split at h
    · exact absurd h (by simp)
    · exact ⟨createUser nextId now d, by simpa using h.symm⟩

/-- Any user object in a /me success response is a password-stripped user. -/
theorem me_success_body (users : List User) (sess : Option Nat)
    (body : List (String × String))
    (h : meHandler users sess = .ok body) :
    ∃ u : User, body = objWithout "password" (userObject u) := by
  unfold meHandler at h
  dsimp only at h
  split at h
  · exact absurd h (by simp)
  · next u _ => exact ⟨u, by simpa using h.symm⟩

/-- Any user object in a profile-update success response is a
password-stripped user. -/
theorem profile_success_body (users : List User) (sess : Option Nat)
    (p : ProfileUpdates) (now : Nat) (body : List (String × String))
    (h : (updateProfileHandler users sess p now).fst = .ok body) :
    ∃ u : User, body = objWithout "password" (userObject u) := by
  unfold updateProfileHandler at h
  dsimp only at h
  split at h
  · exact absurd h (by simp)
  · next u2 users2 _ => exact ⟨u2, by simpa using h.symm⟩

/-- C3: every success response carrying a user object — login, register, /me,
profile update, and the user list — strips the password field: the "password"
key does not occur in the returned object. -/
theorem c3_no_password_in_responses (users : List User) (uname pwd : String)
    (nextId now : Nat) (d : RegisterInput) (sess : Option Nat)
    (p : ProfileUpdates) (body : List (String × String)) :
    ((loginHandler users uname pwd).response = .success body →
      "password" ∉ body.map Prod.fst) ∧
    ((registerHandler users nextId now d).fst = .created body →
      "password" ∉ body.map Prod.fst) ∧
    (meHandler users sess = .ok body → "password" ∉ body.map Prod.fst) ∧
    ((updateProfileHandler users sess p now).fst = .ok body →
      "password" ∉ body.map Prod.fst) ∧
    (body ∈ getUsersHandler users → "password" ∉ body.map Prod.fst) := by
  refine ⟨?_, ?_, ?_, ?_, ?_⟩
  · intro h
    obtain ⟨u, rfl⟩ := login_success_body users uname pwd body h
    exact objWithout_not_mem _ _
  · intro h
    obtain ⟨u, rfl⟩ := register_success_body users nextId now d body h
    exact objWithout_not_mem _ _
  · intro h
    obtain ⟨u, rfl⟩ := me_success_body users sess body h
    exact objWithout_not_mem _ _
  · intro h
    obtain ⟨u, rfl⟩ := profile_success_body users sess p now body h
    exact objWithout_not_mem _ _
  · intro h
    obtain ⟨u, hu, rfl⟩ := List.mem_map.mp h
    exact objWithout_not_mem _ _

/-- A concrete register input used to witness the register path. -/
def sampleRegisterInput : RegisterInput :=
  { username := "jdoe"
    email := "jdoe@police.gov"
    password := "pw12345"
    confirmPassword := "pw12345"
    firstName := "Jane"
    lastName := "Doe" }

/-- C3 witness: each of the five code paths, exercised at a concrete store,
produces a body without a "password" key. -/
theorem c3_no_password_in_responses_witness :
    "password" ∉ (objWithout "password" (userObject adminStored)).map Prod.fst ∧
    "password" ∉ (objWithout "password"
      (userObject (createUser 2 5 sampleRegisterInput))).map Prod.fst ∧
    "password" ∉ (objWithout "password"
      (userObject (applyProfileUpdates adminStored
        ⟨none, none, none, none, none, none, none⟩ 5))).map Prod.fst := by
  refine ⟨?_, ?_, ?_⟩
  · exact (c3_no_password_in_responses [adminStored] "admin" "hunter2" 2 5
      sampleRegisterInput none ⟨none, none, none, none, none, none, none⟩
      (objWithout "password" (userObject adminStored))).1 (by decide)
  · exact (c3_no_password_in_responses [adminStored] "admin" "hunter2" 2 5
      sampleRegisterInput none ⟨none, none, none, none, none, none, none⟩
      (objWithout "password" (userObject (createUser 2 5 sampleRegisterInput)))).2.1
      (by decide)
  · exact (c3_no_password_in_responses [adminStored] "admin" "hunter2" 2 5
      sampleRegisterInput none ⟨none, none, none, none, none, none, none⟩
      (objWithout "password" (userObject (applyProfileUpdates adminStored
        ⟨none, none, none, none, none, none, none⟩ 5)))).2.2.2.1 (by decide)

/-! ### POST /api/geofiles (routes.js lines 563-584) -/

/-- A geofile document. -/
structure Geofile where
  id : Nat
  filename : String
  fileType : String
  uploadedBy : Nat
  downloadCount : Nat
  lastAccessedAt : Nat
  createdAt : Nat
  updatedAt : Nat
deriving Repr, DecidableEq

/-- The request body of POST /api/geofiles (taken raw from req.body, no schema
parse on this route); only the fields the handler inspects are modelled. -/
structure GeofileInput where
  filename : String
  fileType : Option String
deriving Repr, DecidableEq

/-- JS `String.prototype.toLowerCase()` on ASCII data: lowercase every
character. -/
def jsToLowerCase (s : String) : String := ⟨s.data.map Char.toLower⟩

/-- The allowed geofile types, exactly as listed in the handler. -/
def allowedTypes : List String :=
  ["kml", "gpx", "shp", "geojson", "kmz", "gml", "other"]

/-- Modelled from the spec: storage.createGeofile is not in the snapshot; §4.2
create assigns an identifier and creation timestamp, persists the given
fields unaltered, and returns the stored form. -/
def createGeofile (store : List Geofile) (nextId now : Nat)
    (filename fileType : String) (uploadedBy downloadCount lastAccessedAt : Nat) :
    Geofile × List Geofile :=
  let g : Geofile :=
    { id := nextId
      filename := filename
      fileType := fileType
      uploadedBy := uploadedBy
      downloadCount := downloadCount
      lastAccessedAt := lastAccessedAt
      createdAt := now
      updatedAt := now }
  (g, store ++ [g])

inductive GeofileResponse
  /-- HTTP 400 "Invalid file type" -/
  | invalidFileType
  /-- HTTP 201 with the stored geofile -/
  | created (g : Geofile)
deriving Repr, DecidableEq

/-- POST /api/geofiles: builds `{...req.body, uploadedBy: 1, lastAccessedAt,
downloadCount: 0}`, rejects with 400 unless `fileType?.toLowerCase()` is in
allowedTypes, and otherwise persists the data — the fileType exactly as
submitted, not lowercased. -/
def postGeofileHandler (store : List Geofile) (nextId now : Nat)
    (body : GeofileInput) : GeofileResponse × List Geofile :=
  match body.fileType with
  | none => (.invalidFileType, store)
  | some ft =>
    if allowedTypes.contains (jsToLowerCase ft) then
      let r := createGeofile store nextId now body.filename ft 1 0 now
      (.created r.fst, r.snd)
    else (.invalidFileType, store)

/-- The fileType carried by a 201 geofile response, if any. -/
def createdFileType : GeofileResponse → Option String
  | .created g => some g.fileType
  | .invalidFileType => none

/-- C4 counterexample: posting `{fileType: "KML"}` succeeds, but the stored
and returned fileType is "KML" as submitted, not the canonical lowercase
"kml" the claim states. -/
theorem c4_fileType_not_lowercased :
    createdFileType (postGeofileHandler [] 1 0 ⟨"map.kml", some "KML"⟩).fst =
      some "KML" ∧
    createdFileType (postGeofileHandler [] 1 0 ⟨"map.kml", some "KML"⟩).fst ≠
      some "kml" := by
  refine ⟨?_, ?_⟩ <;> decide

/-- C4 amended: a fileType whose lowercase form is in the allowed set is
accepted (case-insensitively) and stored/returned exactly as submitted, with
downloadCount 0 and uploadedBy 1; a fileType outside the set (or absent) is
rejected with 400 and the store is unchanged. -/
theorem c4_fileType_validation (store : List Geofile) (nextId now : Nat)
    (body : GeofileInput) (ft : String) :
    (body.fileType = some ft → allowedTypes.contains (jsToLowerCase ft) = true →
      postGeofileHandler store nextId now body =
        (.created { id := nextId, filename := body.filename, fileType := ft,
                    uploadedBy := 1, downloadCount := 0, lastAccessedAt := now,
                    createdAt := now, updatedAt := now },
         store ++ [{ id := nextId, filename := body.filename, fileType := ft,
                     uploadedBy := 1, downloadCount := 0, lastAccessedAt := now,
                     createdAt := now, updatedAt := now }])) ∧
    (body.fileType = some ft → allowedTypes.contains (jsToLowerCase ft) = false →
      postGeofileHandler store nextId now body = (.invalidFileType, store)) ∧
    (body.fileType = none →
      postGeofileHandler store nextId now body = (.invalidFileType, store)) := by
  refine ⟨?_, ?_, ?_⟩
  · intro hft hok
    have hok2 : jsToLowerCase ft ∈ allowedTypes := by simpa using hok
    simp [postGeofileHandler, hft, hok2, createGeofile]
  · intro hft hbad
    have hbad2 : jsToLowerCase ft ∉ allowedTypes := by simpa using hbad
    simp [postGeofileHandler, hft, hbad2]
  · intro hft
    simp [postGeofileHandler, hft]

/-- C4 witness: "KML" is accepted and stored as "KML"; "xyz" is rejected with
the store unchanged. -/
theorem c4_fileType_validation_witness :
    postGeofileHandler [] 1 0 ⟨"map.kml", some "KML"⟩ =
      (.created { id := 1, filename := "map.kml", fileType := "KML",
                  uploadedBy := 1, downloadCount := 0, lastAccessedAt := 0,
                  createdAt := 0, updatedAt := 0 },
       [{ id := 1, filename := "map.kml", fileType := "KML",
          uploadedBy := 1, downloadCount := 0, lastAccessedAt := 0,
          createdAt := 0, updatedAt := 0 }]) ∧
    postGeofileHandler [] 1 0 ⟨"area.xyz", some "xyz"⟩ =
      (.invalidFileType, []) := by
  constructor
  · exact (c4_fileType_validation [] 1 0 ⟨"map.kml", some "KML"⟩ "KML").1
      rfl (by decide)
  · exact (c4_fileType_validation [] 1 0 ⟨"area.xyz", some "xyz"⟩ "xyz").2.1
      rfl (by decide)

/-! ### DELETE /api/users/:id (routes.js lines 202-215) -/

/-- Modelled from the spec: storage.deleteUser is not in the snapshot; §4.2
delete removes the document permanently and fails with not-found when the
identifier is absent. -/
def deleteUser (users : List User) (uid : Nat) : Option (List User) :=
  if users.any (fun u => u.id == uid) then
    some (users.filter (fun u => u.id != uid))
  else none

inductive DeleteUserResponse
  /-- HTTP 400 "Cannot delete admin account" -/
  | cannotDeleteAdmin
  /-- HTTP 200 "User deleted successfully" -/
  | deleted
  /-- HTTP 404 "User not found" -/
  | notFound
deriving Repr, DecidableEq

/-- DELETE /api/users/:id: returns 400 for identifier 1 before touching the
store; otherwise deletes, answering 404 when the store call fails. -/
def deleteUserHandler (users : List User) (uid : Nat) :
    DeleteUserResponse × List User :=
  if uid == 1 then (.cannotDeleteAdmin, users)
  else
    match deleteUser users uid with
    | some users2 => (.deleted, users2)
    | none => (.notFound, users)

/-- C5: deleting identifier 1 returns 400 and leaves the store unchanged, so
every user with identifier 1 still exists afterward; for any other identifier
the delete proceeds, answering success or 404. -/
theorem c5_admin_delete_protected (users : List User) (uid : Nat) (u : User) :
    deleteUserHandler users 1 = (.cannotDeleteAdmin, users) ∧
    (u ∈ users → u.id = 1 → u ∈ (deleteUserHandler users 1).snd) ∧
    (uid ≠ 1 →
      (deleteUserHandler users uid).fst = .deleted ∨
      (deleteUserHandler users uid).fst = .notFound) := by
  refine ⟨?_, ?_, ?_⟩
  · simp [deleteUserHandler]
  · intro hmem _
    simpa [deleteUserHandler] using hmem
  · intro hne
    unfold deleteUserHandler
    have h1 : (uid == 1) = false := by simpa using hne
    rw [h1]
    simp only [Bool.false_eq_true, if_false]
    cases deleteUser users uid with
    | none => exact Or.inr rfl
    | some users2 => exact Or.inl rfl

/-- C5 witness: with the seeded admin (id 1) and a second user (id 2) in the
store, deleting id 1 returns 400 and the admin remains; deleting id 2
proceeds. -/
theorem c5_admin_delete_protected_witness :
    deleteUserHandler [adminStored, createUser 2 5 sampleRegisterInput] 1 =
      (.cannotDeleteAdmin, [adminStored, createUser 2 5 sampleRegisterInput]) ∧
    adminStored ∈
      (deleteUserHandler [adminStored, createUser 2 5 sampleRegisterInput] 1).snd ∧
    ((deleteUserHandler [adminStored, createUser 2 5 sampleRegisterInput] 2).fst =
        DeleteUserResponse.deleted ∨
      (deleteUserHandler [adminStored, createUser 2 5 sampleRegisterInput] 2).fst =
        DeleteUserResponse.notFound) := by
  refine ⟨?_, ?_, ?_⟩
  · exact (c5_admin_delete_protected
      [adminStored, createUser 2 5 sampleRegisterInput] 2 adminStored).1
  · exact (c5_admin_delete_protected
      [adminStored, createUser 2 5 sampleRegisterInput] 2 adminStored).2.1
      (by decide) (by decide)
  · exact (c5_admin_delete_protected
      [adminStored, createUser 2 5 sampleRegisterInput] 2 adminStored).2.2
      (by decide)

/-! ### PATCH /api/police-vehicles/:id/status and GET /api/police-vehicles/:id
(routes.js lines 691-701 and 736-747) -/

/-- A police vehicle document. -/
structure Vehicle where
  id : Nat
  callSign : String
  status : String
  locationLng : Int
  locationLat : Int
  createdAt : Nat
  updatedAt : Nat
deriving Repr, DecidableEq

/-- The allowed vehicle statuses, exactly as listed in the handler. -/
def vehicleStatuses : List String :=
  ["available", "on_patrol", "responding", "out_of_service"]

/-- Modelled from the spec: storage.updateVehicleStatus is not in the
snapshot; §4.2 says vehicles support direct status mutation and update
refreshes updatedAt and fails with not-found when the identifier is absent. -/
def updateVehicleStatus (vs : List Vehicle) (vid : Nat) (status : String)
    (now : Nat) : Option (Vehicle × List Vehicle) :=
  match vs.find? (fun v => v.id == vid) with
  | none => none
  | some v =>
    let v2 := { v with status := status, updatedAt := now }
    some (v2, vs.map (fun w => if w.id == vid then v2 else w))

inductive VehicleStatusResponse
  /-- HTTP 400 "Invalid status. Must be one of: ..." -/
  | invalidStatus
  /-- HTTP 400 "Failed to update vehicle status" (store call threw) -/
  | updateFailed
  /-- HTTP 200 with the updated vehicle -/
  | ok (v : Vehicle)
deriving Repr, DecidableEq

/-- PATCH /api/police-vehicles/:id/status: rejects with 400 unless the body's
status is truthy and in vehicleStatuses, otherwise applies the store update. -/
def patchVehicleStatusHandler (vs : List Vehicle) (vid : Nat)
    (status : Option String) (now : Nat) : VehicleStatusResponse × List Vehicle :=
  match status with
  | none => (.invalidStatus, vs)
  | some s =>
    if s = "" ∨ ¬ vehicleStatuses.contains s then (.invalidStatus, vs)
    else
      match updateVehicleStatus vs vid s now with
      | some (v2, vs2) => (.ok v2, vs2)
      | none => (.updateFailed, vs)

inductive GetVehicleResponse
  /-- HTTP 404 "Police vehicle not found" -/
  | notFound
  /-- HTTP 200 with the vehicle -/
  | ok (v : Vehicle)
deriving Repr, DecidableEq

/-- GET /api/police-vehicles/:id: returns the vehicle or 404. -/
def getVehicleHandler (vs : List Vehicle) (vid : Nat) : GetVehicleResponse :=
  match vs.find? (fun v => v.id == vid) with
  | none => .notFound
  | some v => .ok v

/-- Replacing the found element in a list keeps it the first match of find?. -/
theorem find?_map_replace (vid : Nat) (v v2 : Vehicle) (vs : List Vehicle)
    (hfind : vs.find? (fun w => w.id == vid) = some v) (hid : v2.id = vid) :
    (vs.map (fun w => if w.id == vid then v2 else w)).find?
      (fun w => w.id == vid) = some v2 := by
  induction vs with
  | nil => simp at hfind
  | cons a t ih =>
    by_cases ha : a.id = vid
    · simp [List.find?, ha, hid]
    · have ha2 : (a.id == vid) = false := by simpa using ha
      rw [List.find?] at hfind
      rw [ha2] at hfind
      simp only [List.map, ha2, Bool.false_eq_true, if_false, List.find?_cons,
        ha2]
      exact ih hfind


/-- C6: PATCH status with any status outside {available, on_patrol,
responding, out_of_service} — "flying" among them — or with no status at all
returns 400 and leaves the store (hence the vehicle) unchanged; with a status
from the allowed set and an existing vehicle it returns 200 with the updated
vehicle, and a subsequent GET of that vehicle reflects the new status. -/
theorem c6_vehicle_status (vs : List Vehicle) (vid now : Nat) (s : String)
    (v : Vehicle) :
    (vehicleStatuses.contains s = false →
      patchVehicleStatusHandler vs vid (some s) now = (.invalidStatus, vs)) ∧
    patchVehicleStatusHandler vs vid none now = (.invalidStatus, vs) ∧
    patchVehicleStatusHandler vs vid (some "flying") now = (.invalidStatus, vs) ∧
    (vehicleStatuses.contains s = true →
      vs.find? (fun w => w.id == vid) = some v →
      patchVehicleStatusHandler vs vid (some s) now =
        (.ok { v with status := s, updatedAt := now },
         vs.map (fun w => if w.id == vid then
           { v with status := s, updatedAt := now } else w)) ∧
      getVehicleHandler (patchVehicleStatusHandler vs vid (some s) now).snd vid =
        .ok { v with status := s, updatedAt := now }) := by
  refine ⟨?_, ?_, ?_, ?_⟩
  · intro hbad
    unfold patchVehicleStatusHandler
    dsimp only
    rw [if_pos (Or.inr (by simpa using hbad))]
  · rfl
  · simp [patchVehicleStatusHandler, vehicleStatuses]
  · intro hs hfind
    have hvid : v.id = vid := by
      have h2 := List.find?_some hfind
      simpa using h2
    have hmem : s ∈ vehicleStatuses := by simpa using hs
    have hne1 : s ≠ "" := by
      intro h
      rw [h] at hmem
      simp [vehicleStatuses] at hmem
    have hne : ¬ (s = "" ∨ ¬ vehicleStatuses.contains s) :=
      fun h => h.elim hne1 (fun hc => hc hs)
    have hupd : updateVehicleStatus vs vid s now =
        some ({ v with status := s, updatedAt := now },
          vs.map (fun w => if w.id == vid then
            { v with status := s, updatedAt := now } else w)) := by
      unfold updateVehicleStatus
      rw [hfind]
    constructor
    · unfold patchVehicleStatusHandler
      dsimp only
      rw [if_neg hne, hupd]
    · unfold patchVehicleStatusHandler
      dsimp only
      rw [if_neg hne, hupd]
      unfold getVehicleHandler
      rw [find?_map_replace vid v { v with status := s, updatedAt := now }
        vs hfind (by simpa using hvid)]

/-- A concrete vehicle used to witness C6. -/
def sampleVehicle : Vehicle :=
  { id := 3
    callSign := "UNIT-7"
    status := "available"
    locationLng := 36
    locationLat := -1
    createdAt := 0
    updatedAt := 0 }

/-- C6 witness: the out-of-set statuses "bogus" and "flying" are rejected
with the store unchanged; "on_patrol" on the existing vehicle 3 succeeds and
the subsequent GET shows "on_patrol". -/
theorem c6_vehicle_status_witness :
    patchVehicleStatusHandler [sampleVehicle] 3 (some "bogus") 9 =
      (.invalidStatus, [sampleVehicle]) ∧
    patchVehicleStatusHandler [sampleVehicle] 3 (some "flying") 9 =
      (.invalidStatus, [sampleVehicle]) ∧
    (patchVehicleStatusHandler [sampleVehicle] 3 (some "on_patrol") 9 =
      (.ok { sampleVehicle with status := "on_patrol", updatedAt := 9 },
       [{ sampleVehicle with status := "on_patrol", updatedAt := 9 }]) ∧
     getVehicleHandler
       (patchVehicleStatusHandler [sampleVehicle] 3 (some "on_patrol") 9).snd 3 =
       .ok { sampleVehicle with status := "on_patrol", updatedAt := 9 }) := by
  refine ⟨?_, ?_, ?_⟩
  · exact (c6_vehicle_status [sampleVehicle] 3 9 "bogus" sampleVehicle).1
      (by decide)
  · exact (c6_vehicle_status [sampleVehicle] 3 9 "on_patrol"
      sampleVehicle).2.2.1
  · have h := (c6_vehicle_status [sampleVehicle] 3 9 "on_patrol"
      sampleVehicle).2.2.2 (by decide) (by decide)
    exact ⟨by simpa using h.1, by simpa using h.2⟩

/-! ### Cases: POST /api/cases and PUT /api/cases/:id
(routes.js lines 219-241) -/

/-- A case document. Fields the client may or may not send are optional,
matching the untyped object spread the routes use. -/
structure Case where
  id : Nat
  title : Option String
  description : Option String
  status : Option String
  priority : Option String
  createdById : Nat
  createdAt : Nat
  updatedAt : Nat
deriving Repr, DecidableEq

/-- A case request body: the parsed insertCaseSchema output for POST, and the
raw req.body for PUT (that route applies no schema). A client may include its
own createdById. -/
structure CaseInput where
  title : Option String
  description : Option String
  status : Option String
  priority : Option String
  createdById : Option Nat
deriving Repr, DecidableEq

/-- POST /api/cases: persists `{...caseData, createdById: 1}` — the creator
reference is overwritten with the fixed identifier 1 after the spread, so any
client-supplied createdById and any session user are ignored.
storage.createCase is modelled from the spec (§4.2 create: assigns identifier
and creation timestamp, persists the given fields). -/
def postCaseHandler (sessionUserId : Option Nat) (input : CaseInput)
    (nextId now : Nat) : Case :=
  { id := nextId
    title := input.title
    description := input.description
    status := input.status
    priority := input.priority
    createdById := 1
    createdAt := now
    updatedAt := now }

/-- Modelled from the spec: storage.updateCase is not in the snapshot; §4.2
update merges the submitted mutable fields and refreshes updatedAt, leaving
the identifier and createdAt unchanged. -/
def applyCaseUpdates (c : Case) (u : CaseInput) (now : Nat) : Case :=
  { c with
    title := match u.title with | none => c.title | some t => some t
    description := match u.description with | none => c.description | some t => some t
    status := match u.status with | none => c.status | some t => some t
    priority := match u.priority with | none => c.priority | some t => some t
    updatedAt := now }

/-- Modelled from the spec: storage.updateCase fails with not-found when the
identifier is absent, otherwise applies the updates in the store and returns
the stored form. -/
def updateCase (cs : List Case) (cid : Nat) (u : CaseInput) (now : Nat) :
    Option (Case × List Case) :=
  match cs.find? (fun c => c.id == cid) with
  | none => none
  | some c =>
    let c2 := applyCaseUpdates c u now
    some (c2, cs.map (fun w => if w.id == cid then c2 else w))

inductive PutCaseResponse
  /-- HTTP 404 "Case not found" -/
  | notFound
  /-- HTTP 200 `{ case }` with the updated case -/
  | ok (c : Case)
deriving Repr, DecidableEq

/-- PUT /api/cases/:id: applies req.body as updates via the store, answering
404 when the store call fails. -/
def putCaseHandler (cs : List Case) (cid : Nat) (u : CaseInput) (now : Nat) :
    PutCaseResponse × List Case :=
  match updateCase cs cid u now with
  | none => (.notFound, cs)
  | some (c2, cs2) => (.ok c2, cs2)

/-! ### Reports: POST /api/reports and PUT /api/reports/:id
(routes.js lines 649-670) -/

/-- A report document. -/
structure Report where
  id : Nat
  type : String
  title : String
  content : String
  status : String
  priority : String
  caseId : Option Nat
  obId : Option Nat
  evidenceId : Option Nat
  requestedBy : Nat
  createdAt : Nat
  updatedAt : Nat
deriving Repr, DecidableEq

/-- The parsed output of insertReportSchema (the schema file is not in the
snapshot): the report fields of the UI form, with the cross-resource
references optional; a client may include its own requestedBy. -/
structure ReportInput where
  type : String
  title : String
  content : String
  status : String
  priority : String
  caseId : Option Nat
  obId : Option Nat
  evidenceId : Option Nat
  requestedBy : Option Nat
deriving Repr, DecidableEq

/-- POST /api/reports: persists `{...reportData, requestedBy: 1}` — the
creator reference is overwritten with the fixed identifier 1 after the
spread, so any client-supplied requestedBy and any session user are ignored.
storage.createReport is modelled from the spec (§4.2 create). -/
def postReportHandler (sessionUserId : Option Nat) (input : ReportInput)
    (nextId now : Nat) : Report :=
  { id := nextId
    type := input.type
    title := input.title
    content := input.content
    status := input.status
    priority := input.priority
    caseId := input.caseId
    obId := input.obId
    evidenceId := input.evidenceId
    requestedBy := 1
    createdAt := now
    updatedAt := now }

/-- Modelled from the spec: storage.updateReport is not in the snapshot; §4.2
update merges the submitted mutable fields and refreshes updatedAt, leaving
the identifier, createdAt and the store-set creator reference unchanged. -/
def applyReportUpdates (r : Report) (u : ReportInput) (now : Nat) : Report :=
  { r with
    type := u.type
    title := u.title
    content := u.content
    status := u.status
    priority := u.priority
    caseId := match u.caseId with | none => r.caseId | some x => some x
    obId := match u.obId with | none => r.obId | some x => some x
    evidenceId := match u.evidenceId with | none => r.evidenceId | some x => some x
    updatedAt := now }

/-- Modelled from the spec: storage.updateReport fails with not-found when
the identifier is absent, otherwise applies the updates in the store. -/
def updateReport (rs : List Report) (rid : Nat) (u : ReportInput) (now : Nat) :
    Option (Report × List Report) :=
  match rs.find? (fun r => r.id == rid) with
  | none => none
  | some r =>
    let r2 := applyReportUpdates r u now
    some (r2, rs.map (fun w => if w.id == rid then r2 else w))

inductive PutReportResponse
  /-- HTTP 400 "Failed to update report" (this route maps store failures to 400) -/
  | failed
  /-- HTTP 200 with the updated report -/
  | ok (r : Report)
deriving Repr, DecidableEq

/-- PUT /api/reports/:id: parses insertReportSchema and applies the update
via the store, answering 400 when the store call fails. -/
def putReportHandler (rs : List Report) (rid : Nat) (u : ReportInput)
    (now : Nat) : PutReportResponse × List Report :=
  match updateReport rs rid u now with
  | none => (.failed, rs)
  | some (r2, rs2) => (.ok r2, rs2)

/-- C7: updating an existing case or report changes only the submitted
fields, refreshes updatedAt to a strictly greater value (the request arriving
after the prior write), and leaves the identifier, createdAt and the creator
reference unchanged. -/
theorem c7_update_frame (cs : List Case) (rs : List Report) (cid rid now : Nat)
    (u : CaseInput) (ru : ReportInput) (c : Case) (r : Report) :
    (cs.find? (fun w => w.id == cid) = some c → c.updatedAt < now →
      putCaseHandler cs cid u now =
        (.ok (applyCaseUpdates c u now),
         cs.map (fun w => if w.id == cid then applyCaseUpdates c u now else w)) ∧
      (applyCaseUpdates c u now).id = c.id ∧
      (applyCaseUpdates c u now).createdAt = c.createdAt ∧
      (applyCaseUpdates c u now).createdById = c.createdById ∧
      c.updatedAt < (applyCaseUpdates c u now).updatedAt ∧
      (u.title = none → (applyCaseUpdates c u now).title = c.title) ∧
      (∀ t, u.title = some t → (applyCaseUpdates c u now).title = some t) ∧
      (u.description = none →
        (applyCaseUpdates c u now).description = c.description) ∧
      (u.status = none → (applyCaseUpdates c u now).status = c.status) ∧
      (u.priority = none → (applyCaseUpdates c u now).priority = c.priority)) ∧
    (rs.find? (fun w => w.id == rid) = some r → r.updatedAt < now →
      putReportHandler rs rid ru now =
        (.ok (applyReportUpdates r ru now),
         rs.map (fun w => if w.id == rid then applyReportUpdates r ru now else w)) ∧
      (applyReportUpdates r ru now).id = r.id ∧
      (applyReportUpdates r ru now).createdAt = r.createdAt ∧
      (applyReportUpdates r ru now).requestedBy = r.requestedBy ∧
      r.updatedAt < (applyReportUpdates r ru now).updatedAt ∧
      (applyReportUpdates r ru now).type = ru.type ∧
      (applyReportUpdates r ru now).title = ru.title ∧
      (applyReportUpdates r ru now).content = ru.content ∧
      (applyReportUpdates r ru now).status = ru.status ∧
      (applyReportUpdates r ru now).priority = ru.priority ∧
      (ru.caseId = none → (applyReportUpdates r ru now).caseId = r.caseId)) := by
  constructor
  · intro hfind hlt
    refine ⟨?_, rfl, rfl, rfl, hlt, ?_, ?_, ?_, ?_, ?_⟩
    · unfold putCaseHandler updateCase
      rw [hfind]
    · intro h; simp [applyCaseUpdates, h]
    · intro t h; simp [applyCaseUpdates, h]
    · intro h; simp [applyCaseUpdates, h]
    · intro h; simp [applyCaseUpdates, h]
    · intro h; simp [applyCaseUpdates, h]
  · intro hfind hlt
    refine ⟨?_, rfl, rfl, rfl, hlt, rfl, rfl, rfl, rfl, rfl, ?_⟩
    · unfold putReportHandler updateReport
      rw [hfind]
    · intro h; simp [applyReportUpdates, h]

/-- A concrete stored case used to witness C7. -/
def sampleCase : Case :=
  { id := 4
    title := some "Burglary on 5th"
    description := some "initial report"
    status := some "open"
    priority := some "High"
    createdById := 1
    createdAt := 10
    updatedAt := 10 }

/-- A concrete stored report used to witness C7. -/
def sampleReport : Report :=
  { id := 6
    type := "Incident"
    title := "Night patrol summary"
    content := "all quiet"
    status := "Pending"
    priority := "Medium"
    caseId := none
    obId := none
    evidenceId := none
    requestedBy := 1
    createdAt := 10
    updatedAt := 10 }

/-- C7 witness: updating the stored case 4 (title only) and stored report 6
at time 20 exhibits all the frame conditions concretely. -/
theorem c7_update_frame_witness :
    (putCaseHandler [sampleCase] 4 ⟨some "Burglary on 5th St", none, none,
        none, none⟩ 20 =
      (.ok (applyCaseUpdates sampleCase ⟨some "Burglary on 5th St", none,
        none, none, none⟩ 20),
       [applyCaseUpdates sampleCase ⟨some "Burglary on 5th St", none, none,
        none, none⟩ 20]) ∧
     sampleCase.updatedAt <
       (applyCaseUpdates sampleCase ⟨some "Burglary on 5th St", none, none,
        none, none⟩ 20).updatedAt) ∧
    (putReportHandler [sampleReport] 6 ⟨"Incident", "Night patrol summary",
        "one arrest", "Completed", "Medium", none, none, none, none⟩ 20 =
      (.ok (applyReportUpdates sampleReport ⟨"Incident",
        "Night patrol summary", "one arrest", "Completed", "Medium", none,
        none, none, none⟩ 20),
       [applyReportUpdates sampleReport ⟨"Incident", "Night patrol summary",
        "one arrest", "Completed", "Medium", none, none, none, none⟩ 20]) ∧
     (applyReportUpdates sampleReport ⟨"Incident", "Night patrol summary",
        "one arrest", "Completed", "Medium", none, none, none, none⟩
        20).createdAt = sampleReport.createdAt) := by
  constructor
  · have h := (c7_update_frame [sampleCase] [sampleReport] 4 6 20
      ⟨some "Burglary on 5th St", none, none, none, none⟩
      ⟨"Incident", "Night patrol summary", "one arrest", "Completed",
        "Medium", none, none, none, none⟩ sampleCase sampleReport).1
      (by decide) (by decide)
    exact ⟨by simpa using h.1, h.2.2.2.2.1⟩
  · have h := (c7_update_frame [sampleCase] [sampleReport] 4 6 20
      ⟨some "Burglary on 5th St", none, none, none, none⟩
      ⟨"Incident", "Night patrol summary", "one arrest", "Completed",
        "Medium", none, none, none, none⟩ sampleCase sampleReport).2
      (by decide) (by decide)
    exact ⟨by simpa using h.1, h.2.2.1⟩

/-! ### OB entries: GET /api/ob-entries and POST /api/ob-entries
(routes.js lines 254-341) -/

/-- A JS Date as the OB routes observe it: its toISOString() value and its
toTimeString() value. -/
structure JSDate where
  iso : String
  timeString : String
deriving Repr, DecidableEq

/-- JS `d.toISOString().split('T')[0]`. -/
def isoDatePart (s : String) : String := (s.splitOn "T").headD ""

/-- JS `d.toTimeString().split(' ')[0]`. -/
def timeStringPart (s : String) : String := (s.splitOn " ").headD ""

/-- An OB entry document as stored in MongoDB; every field an older document
may lack is optional. -/
structure OBDoc where
  mongoId : String
  obNumber : Option String
  type : Option String
  description : Option String
  reportedBy : Option String
  officer : Option String
  dateTime : Option String
  date : Option String
  time : Option String
  status : Option String
  recordingOfficerId : Option Nat
  location : Option String
  details : Option String
  createdAt : Option JSDate
  updatedAt : Option JSDate
deriving Repr, DecidableEq

/-- The generated OB number
`` `OB-${year}-${Math.random().toString(36).substr(2,6).toUpperCase()}` ``;
the six random base-36 characters are the parameter rand6. -/
def genOBNumber (year : Nat) (rand6 : String) : String :=
  "OB-" ++ toString year ++ "-" ++ ⟨rand6.data.map Char.toUpper⟩

/-- The transformed OB entry the GET route returns for each document. -/
structure OBView where
  id : String
  obNumber : String
  type : String
  description : String
  reportedBy : String
  officer : String
  dateTime : String
  date : String
  time : String
  status : String
  recordingOfficerId : Nat
  location : String
  details : String
  createdAt : Option JSDate
  updatedAt : Option JSDate
deriving Repr, DecidableEq

/-- The per-entry transform of GET /api/ob-entries (routes.js lines 262-281):
fills defaults for absent fields before responding. -/
def transformOBEntry (now : JSDate) (year : Nat) (rand6 : String)
    (e : OBDoc) : OBView :=
  { id := e.mongoId
    obNumber := jsOrStr e.obNumber (genOBNumber year rand6)
    type := jsOrStr e.type "Incident"
    description := jsOrStr e.description ""
    reportedBy := jsOrStr e.reportedBy ""
    officer := jsOrStr e.officer "Officer Smith"
    dateTime := jsOrStr e.dateTime (jsOrStr (e.createdAt.map JSDate.iso) now.iso)
    date := jsOrStr e.date
      (match e.createdAt with
       | some d => isoDatePart d.iso
       | none => isoDatePart now.iso)
    time := jsOrStr e.time
      (match e.createdAt with
       | some d => timeStringPart d.timeString
       | none => timeStringPart now.timeString)
    status := jsOrStr e.status "Pending"
    recordingOfficerId := jsOrNat e.recordingOfficerId 1
    location := jsOrStr e.location ""
    details := jsOrStr e.details ""
    createdAt := e.createdAt
    updatedAt := e.updatedAt }

/-- GET /api/ob-entries: transforms every stored document. -/
def getOBEntriesHandler (docs : List OBDoc) (now : JSDate) (year : Nat)
    (rand6 : String) : List OBView :=
  docs.map (transformOBEntry now year rand6)

/-- The parsed output of insertOBSchema (the schema file is not in the
snapshot): every field of the POST body, optional. -/
structure OBInput where
  obNumber : Option String
  type : Option String
  description : Option String
  reportedBy : Option String
  officer : Option String
  dateTime : Option String
  date : Option String
  time : Option String
  status : Option String
  location : Option String
  details : Option String
deriving Repr, DecidableEq

/-- The response object of POST /api/ob-entries (routes.js lines 318-334):
the stored document's fields copied verbatim, with the store id as `id`. -/
structure OBPostView where
  id : String
  obNumber : Option String
  type : Option String
  description : Option String
  reportedBy : Option String
  officer : Option String
  dateTime : Option String
  date : Option String
  time : Option String
  status : Option String
  location : Option String
  details : Option String
  recordingOfficerId : Option Nat
  createdAt : Option JSDate
  updatedAt : Option JSDate
deriving Repr, DecidableEq

/-- POST /api/ob-entries: builds entryToCreate with obNumber generated when
absent, dateTime/date/time defaulted to now, status defaulted to "Pending",
and recordingOfficerId fixed to 1; the officer field is spread through
without a default. OBEntriesCRUD.create is modelled from the spec (§4.2
create: assigns the identifier newId and the creation timestamp, persists the
given fields). Returns the response object and the stored document. -/
def postOBHandler (input : OBInput) (now : JSDate) (year : Nat)
    (rand6 : String) (newId : String) : OBPostView × OBDoc :=
  let obNumber := jsOrStr input.obNumber (genOBNumber year rand6)
  let entry : OBDoc :=
    { mongoId := newId
      obNumber := some obNumber
      type := input.type
      description := input.description
      reportedBy := input.reportedBy
      officer := input.officer
      dateTime := some (jsOrStr input.dateTime now.iso)
      date := some (jsOrStr input.date (isoDatePart now.iso))
      time := some (jsOrStr input.time (timeStringPart now.timeString))
      status := some (jsOrStr input.status "Pending")
      recordingOfficerId := some 1
      location := input.location
      details := input.details
      createdAt := some now
      updatedAt := some now }
  ({ id := entry.mongoId
     obNumber := entry.obNumber
     type := entry.type
     description := entry.description
     reportedBy := entry.reportedBy
     officer := entry.officer
     dateTime := entry.dateTime
     date := entry.date
     time := entry.time
     status := entry.status
     location := entry.location
     details := entry.details
     recordingOfficerId := entry.recordingOfficerId
     createdAt := entry.createdAt
     updatedAt := entry.updatedAt },
   entry)

/-- An OB POST body with every field absent. -/
def emptyOBInput : OBInput :=
  { obNumber := none
    type := none
    description := none
    reportedBy := none
    officer := none
    dateTime := none
    date := none
    time := none
    status := none
    location := none
    details := none }

/-- A concrete request time used in the OB theorems. -/
def sampleNow : JSDate :=
  { iso := "2025-06-01T10:20:30.000Z"
    timeString := "10:20:30 GMT+0000 (Coordinated Universal Time)" }

/-- C8 counterexample: a POST /api/ob-entries body with no officer field
yields a created entry and response whose officer is absent — it is not
defaulted to a placeholder string, contrary to the claim's "a missing officer
field defaults to a placeholder string" on the POST path (the claim holds
only on the GET path). -/
theorem c8_post_officer_not_defaulted :
    (postOBHandler emptyOBInput sampleNow 2025 "ab12cd" "665f01").fst.officer
      = none ∧
    (postOBHandler emptyOBInput sampleNow 2025 "ab12cd" "665f01").snd.officer
      = none ∧
    (postOBHandler emptyOBInput sampleNow 2025 "ab12cd" "665f01").fst.status
      = some "Pending" := by
  refine ⟨rfl, rfl, rfl⟩

/-- C8 amended: on GET, a missing status defaults to "Pending", a missing
officer defaults to the placeholder "Officer Smith", and a missing obNumber
is generated as OB-<year>-<random6>; on POST, a missing status defaults to
"Pending" and a missing obNumber is generated in the same form, but a missing
officer stays absent (no placeholder is applied on create). -/
theorem c8_ob_defaults (e : OBDoc) (input : OBInput) (now : JSDate)
    (year : Nat) (rand6 newId : String) :
    (e.status = none → (transformOBEntry now year rand6 e).status = "Pending") ∧
    (e.officer = none →
      (transformOBEntry now year rand6 e).officer = "Officer Smith") ∧
    (e.obNumber = none →
      (transformOBEntry now year rand6 e).obNumber = genOBNumber year rand6) ∧
    (input.status = none →
      (postOBHandler input now year rand6 newId).fst.status = some "Pending") ∧
    (input.obNumber = none →
      (postOBHandler input now year rand6 newId).fst.obNumber =
        some (genOBNumber year rand6)) ∧
    (postOBHandler input now year rand6 newId).fst.officer = input.officer := by
  refine ⟨?_, ?_, ?_, ?_, ?_, rfl⟩
  · intro h; simp [transformOBEntry, jsOrStr, h]
  · intro h; simp [transformOBEntry, jsOrStr, h]
  · intro h; simp [transformOBEntry, jsOrStr, h]
  · intro h; simp [postOBHandler, jsOrStr, h]
  · intro h; simp [postOBHandler, jsOrStr, h]

/-- A stored OB document with officer, status and obNumber absent. -/
def legacyOBDoc : OBDoc :=
  { mongoId := "664a00"
    obNumber := none
    type := some "Incident"
    description := some "noise complaint"
    reportedBy := some "resident"
    officer := none
    dateTime := none
    date := none
    time := none
    status := none
    recordingOfficerId := none
    location := some "5th Ave"
    details := none
    createdAt := some sampleNow
    updatedAt := some sampleNow }

/-- C8 witness: the GET transform of a legacy document defaults status,
officer and obNumber; the POST of an empty body defaults status and obNumber
and leaves officer absent. -/
theorem c8_ob_defaults_witness :
    (transformOBEntry sampleNow 2025 "ab12cd" legacyOBDoc).status = "Pending" ∧
    (transformOBEntry sampleNow 2025 "ab12cd" legacyOBDoc).officer =
      "Officer Smith" ∧
    (transformOBEntry sampleNow 2025 "ab12cd" legacyOBDoc).obNumber =
      genOBNumber 2025 "ab12cd" ∧
    (postOBHandler emptyOBInput sampleNow 2025 "ab12cd" "665f01").fst.status =
      some "Pending" ∧
    (postOBHandler emptyOBInput sampleNow 2025 "ab12cd" "665f01").fst.obNumber =
      some (genOBNumber 2025 "ab12cd") ∧
    (postOBHandler emptyOBInput sampleNow 2025 "ab12cd" "665f01").fst.officer =
      emptyOBInput.officer := by
  have h := c8_ob_defaults legacyOBDoc emptyOBInput sampleNow 2025 "ab12cd"
    "665f01"
  exact ⟨h.1 rfl, h.2.1 rfl, h.2.2.1 rfl, h.2.2.2.1 rfl, h.2.2.2.2.1 rfl,
    h.2.2.2.2.2⟩

/-! ### POST /api/license-plates (routes.js lines 393-404) -/

/-- A license plate document. -/
structure LicensePlate where
  id : Nat
  plateNumber : Option String
  ownerName : Option String
  vehicleModel : Option String
  addedById : Nat
  createdAt : Nat
  updatedAt : Nat
deriving Repr, DecidableEq

/-- The parsed output of insertLicensePlateSchema (the schema file is not in
the snapshot); a client may include its own addedById. -/
structure PlateInput where
  plateNumber : Option String
  ownerName : Option String
  vehicleModel : Option String
  addedById : Option Nat
deriving Repr, DecidableEq

/-- POST /api/license-plates: persists `{...plateData, addedById: 1}` — the
creator reference is overwritten with the fixed identifier 1 after the
spread, so any client-supplied addedById and any session user are ignored.
storage.createLicensePlate is modelled from the spec (§4.2 create). -/
def postPlateHandler (sessionUserId : Option Nat) (input : PlateInput)
    (nextId now : Nat) : LicensePlate :=
  { id := nextId
    plateNumber := input.plateNumber
    ownerName := input.ownerName
    vehicleModel := input.vehicleModel
    addedById := 1
    createdAt := now
    updatedAt := now }

/-- C9: the creator-reference field stored by POST /api/cases (createdById),
POST /api/license-plates (addedById) and POST /api/reports (requestedBy) is
the fixed identifier 1, whatever creator value the client supplies and
whatever session (or none) the request carries. -/
theorem c9_creator_always_one (sess : Option Nat) (ci : CaseInput)
    (pi : PlateInput) (ri : ReportInput) (nextId now : Nat) :
    (postCaseHandler sess ci nextId now).createdById = 1 ∧
    (postPlateHandler sess pi nextId now).addedById = 1 ∧
    (postReportHandler sess ri nextId now).requestedBy = 1 := by
  exact ⟨rfl, rfl, rfl⟩

/-- C10: a PUT /api/profile request with no active session is not rejected:
the update is applied to the user with the fixed identifier 1, and the
response is the 200 success carrying that updated, password-stripped user
(the handler has no authentication branch at all). -/
theorem c10_profile_defaults_to_user_one (users : List User)
    (p : ProfileUpdates) (now : Nat) (u : User) :
    getUser users 1 = some u →
    updateProfileHandler users none p now =
      (.ok (objWithout "password" (userObject (applyProfileUpdates u p now))),
       users.map (fun v => if v.id == 1 then applyProfileUpdates u p now else v)) := by
  intro hget
  unfold updateProfileHandler updateUser
  dsimp only [jsOrNat]
  rw [hget]

/-- C10 witness: with the seeded admin (id 1) in the store and no session,
the profile update lands on the admin and answers 200. -/
theorem c10_profile_defaults_to_user_one_witness :
    updateProfileHandler [adminStored] none
      ⟨some "Sys", none, none, none, none, none, none⟩ 30 =
      (.ok (objWithout "password" (userObject (applyProfileUpdates adminStored
        ⟨some "Sys", none, none, none, none, none, none⟩ 30))),
       [applyProfileUpdates adminStored
        ⟨some "Sys", none, none, none, none, none, none⟩ 30]) := by
  have h := c10_profile_defaults_to_user_one [adminStored]
    ⟨some "Sys", none, none, none, none, none, none⟩ 30 adminStored (by decide)
  simpa using h

end PoliceSystem
